import Mathlib

/-!
# Shallow embedding of the directory segmentation tool

This file embeds the core state and operations of an interactive image
segmentation tool (`directory_segmentation.py`, `output_manager.py`,
`workspace_config.py`) in Lean 4 and proves properties of the embedded
operations.

Modelling conventions:
* Python `int` is `Int`; Python `%` on a positive modulus is `Int.emod`;
  Python `//` (floor division) is `Int.fdiv`; Python `int(x)` on a float
  quotient (truncation toward zero) is `Int.tdiv` on the exact rational,
  so `int(a / (v / 100.0))` is modelled as `(a * 100).tdiv v`.
* Python lists used as stacks via `append`/`pop` are Lean lists with the
  head as the stack top.
* `QImage` masks are modelled either opaquely (for the history stacks,
  which never inspect pixel data) or as dimensions plus a pixel lookup
  (for the mask store), with the resampling kernel of `QImage.scaled`
  abstracted to coordinate sampling. The antialiased stroke renderer is
  modelled per channel with an abstract fractional coverage function,
  retaining the partial-coverage blending of the composition modes.
* Filesystem effects are modelled by explicit state records plus boolean
  outcome parameters for the individual I/O primitives.
-/

namespace SegTool

/-- Pixel dimensions of an image or pixmap (`QSize`). -/
structure QSize where
  w : Nat
  h : Nat
deriving DecidableEq, Repr

/-! ## Navigation: `DirectorySegmentation._go_next` / `_go_previous` -/

/-- The navigation-relevant fields of `DirectorySegmentation`:
the ordered image list and the current index. -/
structure NavState where
  imageFiles : List String
  currentIndex : Int
deriving DecidableEq, Repr

/-- `_go_next`: no-op when `image_files` is empty, otherwise
`current_index = (current_index + 1) % len(image_files)`. -/
def goNext (s : NavState) : NavState :=
  match s.imageFiles with
  | [] => s
  | _ => { s with currentIndex := (s.currentIndex + 1).emod (s.imageFiles.length : Int) }

/-- `_go_previous`: no-op when `image_files` is empty, otherwise
`current_index = (current_index - 1) % len(image_files)`. -/
def goPrevious (s : NavState) : NavState :=
  match s.imageFiles with
  | [] => s
  | _ => { s with currentIndex := (s.currentIndex - 1).emod (s.imageFiles.length : Int) }

/-! ## Undo/redo history: `_undo`, `_redo`, `_save_mask_state`

The history operations treat the mask as an opaque value (`copy()` is a
deep copy, i.e. value semantics), so they are parametric in the mask
type `M`. -/

/-- The history-relevant fields of `DirectorySegmentation`:
`_mask` (`None` when no image is loaded), `_undo_stack`, `_redo_stack`.
The list head is the stack top. -/
structure EditorState (M : Type) where
  mask : Option M
  undoStack : List M
  redoStack : List M
deriving DecidableEq, Repr

/-- `_undo`: no-op if `_undo_stack` is empty; otherwise push a copy of the
current mask (when present) onto `_redo_stack` and pop `_undo_stack`
into the current mask. -/
def undo {M : Type} (s : EditorState M) : EditorState M :=
  match s.undoStack with
  | [] => s
  | top :: rest =>
    { mask := some top
      undoStack := rest
      redoStack :=
        match s.mask with
        | some m => m :: s.redoStack
        | none => s.redoStack }

/-- `_redo`: no-op if `_redo_stack` is empty; otherwise push a copy of the
current mask (when present) onto `_undo_stack` and pop `_redo_stack`
into the current mask. -/
def redo {M : Type} (s : EditorState M) : EditorState M :=
  match s.redoStack with
  | [] => s
  | top :: rest =>
    { mask := some top
      redoStack := rest
      undoStack :=
        match s.mask with
        | some m => m :: s.undoStack
        | none => s.undoStack }

/-- `_save_mask_state`: when a mask is present, push a copy of it onto
`_undo_stack` and clear `_redo_stack`; otherwise do nothing. -/
def saveMaskState {M : Type} (s : EditorState M) : EditorState M :=
  match s.mask with
  | none => s
  | some m => { s with undoStack := m :: s.undoStack, redoStack := [] }

/-! ## Image loading: `DirectorySegmentation._load_current_image` -/

/-- The fields of `DirectorySegmentation` touched by `_load_current_image`.
The pixmap is modelled by its size alone. -/
structure SessionState (M : Type) where
  imageFiles : List String
  currentIndex : Nat
  originalPixmap : Option QSize
  mask : Option M
  undoStack : List M
  redoStack : List M
deriving DecidableEq, Repr

/-- `_load_current_image`. `decode` models `QPixmap(path)` (`none` =
`isNull()`); `maskFor` models `_load_existing_mask` / `_init_mask`, which
always produce a mask once a pixmap is present.

Control flow from the source: if `image_files` is empty, blank the label,
set pixmap and mask to `None` and return early; if the pixmap is null,
likewise return early; only on success set the pixmap, load/init the
mask, and clear both history stacks. -/
def loadCurrentImage {M : Type} (decode : String → Option QSize) (maskFor : QSize → M)
    (s : SessionState M) : SessionState M :=
  match s.imageFiles with
  | [] => { s with originalPixmap := none, mask := none }
  | files =>
    match decode (files[s.currentIndex]?.getD "") with
    | none => { s with originalPixmap := none, mask := none }
    | some pm =>
      { s with
          originalPixmap := some pm
          mask := some (maskFor pm)
          undoStack := []
          redoStack := [] }

/-! ## Forward viewport-to-image mapping: `_map_label_pos_to_image`

Arguments: label (viewport) size, rendered pixmap size, image size, zoom
spinbox value in percent, pan offset, and the event position in label
coordinates. Python's `int((local + pan) / (zoomPct / 100.0))` is the
truncation toward zero of the exact quotient, i.e.
`((local + pan) * 100).tdiv zoomPct`. -/

/-- `_map_label_pos_to_image`: subtract the letterbox centering offset,
reject positions outside the rendered pixmap, add the pan offset, divide
by the zoom factor with truncation, and reject results outside
`[0,W) × [0,H)` of the image. -/
def mapLabelPosToImage (labelW labelH pixW pixH imgW imgH zoomPct panx pany lx ly : Int) :
    Option (Int × Int) :=
  let offsetX := (labelW - pixW).fdiv 2
  let offsetY := (labelH - pixH).fdiv 2
  let localX := lx - offsetX
  let localY := ly - offsetY
  if localX < 0 ∨ localY < 0 ∨ pixW ≤ localX ∨ pixH ≤ localY then none
  else
    let imageX := ((localX + panx) * 100).tdiv zoomPct
    let imageY := ((localY + pany) * 100).tdiv zoomPct
    if imageX < 0 ∨ imageY < 0 ∨ imgW ≤ imageX ∨ imgH ≤ imageY then none
    else some (imageX, imageY)

/-! ## Zoom change: `DirectorySegmentation._on_zoom_changed`

The pan-offset update performed when the zoom spinbox changes from
`prevZoomPct` to `newZoomPct` with an image loaded. From the source:

    center_x = pan_x + label_size.width() // 2
    new_scaled_width = int(self._original_pixmap.width() * self._zoom_factor)
    new_pan_x = max(0, center_x - label_size.width() // 2)
    max_x = max(0, new_scaled_width - label_size.width())
    self._pan_offset = (min(new_pan_x, max_x), ...)

(and symmetrically for y). -/

/-- The new pan offset computed by `_on_zoom_changed`. -/
def onZoomChangedPan (imgW imgH labelW labelH panx pany prevZoomPct newZoomPct : Int) :
    Int × Int :=
  if prevZoomPct = newZoomPct then (panx, pany)
  else
    let centerX := panx + labelW.fdiv 2
    let centerY := pany + labelH.fdiv 2
    let newScaledW := (imgW * newZoomPct).tdiv 100
    let newScaledH := (imgH * newZoomPct).tdiv 100
    let newPanX := max 0 (centerX - labelW.fdiv 2)
    let newPanY := max 0 (centerY - labelH.fdiv 2)
    let maxX := max 0 (newScaledW - labelW)
    let maxY := max 0 (newScaledH - labelH)
    (min newPanX maxX, min newPanY maxY)

/-! ## Mask store: `_init_mask`, `_load_existing_mask`

A mask raster is modelled by its dimensions and a pixel lookup returning
the packed ARGB value at each coordinate (0 = fully transparent).
`QImage.scaled(size, Qt.IgnoreAspectRatio, ...)` produces an image of
exactly the requested size; the resampling kernel (SmoothTransformation)
is abstracted as coordinate sampling.
`convertToFormat(Format_ARGB32_Premultiplied)` preserves size and is
modelled as the identity on this representation. -/

/-- A mask raster: dimensions plus pixel lookup. -/
structure MaskImg where
  width : Nat
  height : Nat
  pix : Nat → Nat → Nat

/-- `_init_mask` with a pixmap present: a zero-filled (fully transparent)
mask of the pixmap's size (`QImage(size, ...)` then `fill(0)`). -/
def initMask (size : QSize) : MaskImg :=
  { width := size.w, height := size.h, pix := fun _ _ => 0 }

/-- Model of `QImage.scaled(size, Qt.IgnoreAspectRatio, ...)`: the result
has exactly the requested size; each output pixel samples the source at
the proportional coordinate. -/
def scaledIgnoreAspect (m : MaskImg) (size : QSize) : MaskImg :=
  { width := size.w
    height := size.h
    pix := fun x y => m.pix (x * m.width / size.w) (y * m.height / size.h) }

/-- `_load_existing_mask` with a pixmap of size `size` present.
`loaded` models the result of `QImage(mask_path)`: `none` when the file
does not exist or the loaded image `isNull()`, otherwise the decoded
raster. On a successful load whose size differs from the image size, the
mask is rescaled with `Qt.IgnoreAspectRatio`; otherwise it is used as
is. When no mask could be loaded, fall back to `_init_mask`. -/
def loadExistingMask (loaded : Option MaskImg) (size : QSize) : MaskImg :=
  match loaded with
  | some lm =>
    if lm.width = size.w ∧ lm.height = size.h then lm
    else scaledIgnoreAspect lm size
  | none => initMask size

/-! ## Stroke renderer: `DirectorySegmentation._apply_stroke`

`_apply_stroke` paints with a `QPainter` whose
`RenderHint.Antialiasing` is enabled, drawing a round-capped,
round-joined line of pen width `max 1 (radius * 2)` in
`CompositionMode_Clear` (erase) or `CompositionMode_SourceOver` with
the fully opaque pen colour `QColor(255,255,255,255)` (paint).

With antialiasing, the rasterizer assigns each pixel a fractional
coverage c ∈ [0,1] of the stroke footprint: 1 at interior pixels, 0 at
exterior pixels, and a fractional value at footprint-edge pixels. The
exact edge values are Qt's rasterization kernel and are kept abstract
as a coverage function; the partial-coverage blending itself is
retained. On the premultiplied ARGB buffer the two composition modes
act per channel as
  * Clear: out = dst · (1 − c)
  * SourceOver with an opaque white source: out = 255 · c + dst · (1 − c)
Since the pen colour is opaque white, all four channels transform
identically, so a single channel (the alpha channel, the annotation
signal) is modelled, with exact rational values. -/

/-- Integer point in image-pixel coordinates. -/
abbrev Pt := Int × Int

/-- One channel of the mask raster: an exact rational channel value per
point. -/
abbrev Raster := Pt → ℚ

/-- The two stroke composition modes selected by the tool radio buttons. -/
inductive StrokeMode
  | paint
  | erase
deriving DecidableEq, Repr

/-- `_apply_stroke` on one channel of the mask raster: `cov p` is the
antialiased coverage of the stroke footprint at pixel `p` (1 inside, 0
outside, fractional at antialiased edges). Erase
(`CompositionMode_Clear`) scales the destination by 1 − c; paint
(`CompositionMode_SourceOver`, opaque white pen) writes
255 · c + dst · (1 − c). -/
def applyStrokeAA (mode : StrokeMode) (cov : Pt → ℚ) (m : Raster) : Raster :=
  fun p =>
    match mode with
    | .erase => m p * (1 - cov p)
    | .paint => 255 * cov p + m p * (1 - cov p)

/-! ## Saving: `OutputManager.save_mask_with_original`

The filesystem is modelled by whether the two destination files exist;
the outcomes of the individual I/O primitives (`shutil.copy2`,
`QImage.save`) are boolean parameters. Each primitive is atomic at file
granularity in this model. -/

/-- Existence of the two destination files of a save operation. -/
structure FSState where
  origExists : Bool
  maskExists : Bool
deriving DecidableEq, Repr

/-- The exceptions `save_mask_with_original` can raise. -/
inductive SaveErr
  | valueError
  | runtimeError
  | ioErrorCopy
  | ioErrorSave
deriving DecidableEq, Repr

/-- `save_mask_with_original`: raise `ValueError` on an invalid mask,
`RuntimeError` when the workspace is uninitialized; then copy the
original image to the workspace when not already present (re-raising a
copy failure as `IOError`); then save the mask (re-raising a save
failure as `IOError`). Returns the raised exception (if any) together
with the resulting filesystem state. -/
def saveMaskWithOriginal (maskValid initialized copyOk maskSaveOk : Bool)
    (fs : FSState) : Option SaveErr × FSState :=
  if maskValid = false then (some .valueError, fs)
  else if initialized = false then (some .runtimeError, fs)
  else if fs.origExists = false then
    if copyOk = false then (some .ioErrorCopy, fs)
    else
      let fs1 : FSState := { fs with origExists := true }
      if maskSaveOk = false then (some .ioErrorSave, fs1)
      else (none, { fs1 with maskExists := true })
  else
    if maskSaveOk = false then (some .ioErrorSave, fs)
    else (none, { fs with maskExists := true })

/-- `DirectorySegmentation._save_mask`, open-workspace branch (the
`else` of the try block): the pre-checks abort with a user-visible
message before any file operation when no mask is present or the
workspace is uninitialized; otherwise the mask is saved FIRST
(`QImage.save`, raising `IOError` when it returns False) and the
original is copied AFTERWARDS when not already present (a
`shutil.copy2` failure propagates to the enclosing except handler,
which reports the save as failed). Note the ordering is the reverse of
`save_mask_with_original`. -/
def saveMaskOpenWorkspace (maskValid initialized maskSaveOk copyOk : Bool)
    (fs : FSState) : Option SaveErr × FSState :=
  if maskValid = false then (some .valueError, fs)
  else if initialized = false then (some .runtimeError, fs)
  else if maskSaveOk = false then (some .ioErrorSave, fs)
  else
    let fs1 : FSState := { fs with maskExists := true }
    if fs.origExists = false then
      if copyOk = false then (some .ioErrorCopy, fs1)
      else (none, { fs1 with origExists := true })
    else (none, fs1)

/-! ## Workspace configuration: `WorkspaceConfig.load`

JSON values are modelled by the shapes occurring in `DEFAULT_CONFIG`
(strings, booleans, and a flat string dictionary). A Python dict is an
association list whose lookup finds the first matching key;
`base.copy()` followed by `base.update(upd)` has the lookup semantics of
`upd ++ base`. -/

/-- A configuration value. -/
inductive JVal
  | jstr (s : String)
  | jbool (b : Bool)
  | jdict (fields : List (String × String))
deriving DecidableEq, Repr

/-- `WorkspaceConfig.DEFAULT_CONFIG`. -/
def DEFAULT_CONFIG : List (String × JVal) :=
  [("workspace_root", .jstr "./workspace"),
   ("naming_pattern", .jstr "\x7bbasename\x7d_mask.png"),
   ("subdirs", .jdict [("original", "OriginalImage"), ("mask", "Mask")]),
   ("overwrite_existing", .jbool true),
   ("create_timestamp_on_conflict", .jbool true)]

/-- Possible contents of the `workspace_config.json` file, as seen by
`load`: the file may be absent, unreadable (`IOError`), malformed JSON
(`json.JSONDecodeError`), or parse to a JSON object. -/
inductive ConfigFile
  | absent
  | unreadable
  | malformed
  | object (fields : List (String × JVal))
deriving DecidableEq, Repr

/-- The key/value pairs the file contributes (empty unless it parses to
an object). -/
def fileFields : ConfigFile → List (String × JVal)
  | .object fields => fields
  | _ => []

/-- `WorkspaceConfig.load`: return the defaults when the file is absent;
catch `json.JSONDecodeError` and `IOError` and return the defaults;
otherwise merge the parsed object over a copy of the defaults
(`config = DEFAULT_CONFIG.copy(); config.update(loaded_config)`).
An uncaught exception would appear as `Except.error`. -/
def configLoad : ConfigFile → Except String (List (String × JVal))
  | .absent => .ok DEFAULT_CONFIG
  | .unreadable => .ok DEFAULT_CONFIG
  | .malformed => .ok DEFAULT_CONFIG
  | .object fields => .ok (fields ++ DEFAULT_CONFIG)

/-! ## Theorems -/

/-- C9: on a non-empty image list of length n, `_go_next` sets the index
to (i+1) mod n and `_go_previous` sets it to (i-1) mod n; on the empty
list both are no-ops; and on a 3-image list starting at index 0, next,
next, previous lands on index 1. -/
theorem goNext_goPrevious_wraparound (s : NavState) :
    (s.imageFiles ≠ [] →
      (goNext s).currentIndex = (s.currentIndex + 1).emod (s.imageFiles.length : Int) ∧
      (goPrevious s).currentIndex = (s.currentIndex - 1).emod (s.imageFiles.length : Int)) ∧
    (s.imageFiles = [] → goNext s = s ∧ goPrevious s = s) ∧
    (goPrevious (goNext (goNext ⟨["a", "b", "c"], 0⟩))).currentIndex = 1 := by
  obtain ⟨files, idx⟩ := s
  refine ⟨?_, ?_, by decide⟩
  · intro h
    cases files with
    | nil => exact absurd rfl h
    | cons a t => exact ⟨rfl, rfl⟩
  · intro h
    subst h
    exact ⟨rfl, rfl⟩

/-- C9 witness: the theorem applied to the concrete 2-image list
`["a", "b"]` at index 1. -/
theorem goNext_goPrevious_wraparound_witness :
    (goNext ⟨["a", "b"], 1⟩).currentIndex = ((1 : Int) + 1).emod 2 ∧
    (goPrevious ⟨["a", "b"], 1⟩).currentIndex = ((1 : Int) - 1).emod 2 :=
  (goNext_goPrevious_wraparound ⟨["a", "b"], 1⟩).1 (by decide)

/-- C4: when a current mask is present and the undo stack is non-empty,
`_undo` followed by `_redo` restores the current mask to its exact value
before the undo; `_undo` is a no-op on an empty undo stack and `_redo`
is a no-op on an empty redo stack. -/
theorem undo_redo_restores_mask {M : Type} (s : EditorState M) (m : M)
    (hm : s.mask = some m) (hu : s.undoStack ≠ []) :
    (redo (undo s)).mask = some m ∧
    (∀ t : EditorState M, t.undoStack = [] → undo t = t) ∧
    (∀ t : EditorState M, t.redoStack = [] → redo t = t) := by
  obtain ⟨mask, us, rs⟩ := s
  simp only at hm
  subst hm
  refine ⟨?_, ?_, ?_⟩
  · cases us with
    | nil => exact absurd rfl hu
    | cons top rest => rfl
  · intro t ht
    obtain ⟨tm, tu, tr⟩ := t
    simp only at ht
    subst ht
    rfl
  · intro t ht
    obtain ⟨tm, tu, tr⟩ := t
    simp only at ht
    subst ht
    rfl

/-- C4 witness: the theorem applied to the concrete state with current
mask 1 and undo stack [2]. -/
theorem undo_redo_restores_mask_witness :
    (redo (undo (⟨some 1, [2], []⟩ : EditorState Nat))).mask = some 1 :=
  (undo_redo_restores_mask (⟨some 1, [2], []⟩ : EditorState Nat) 1 rfl (by decide)).1

/-- C5: when a pre-stroke mask is present, `_save_mask_state` (called on
pointer-down of a paint/erase gesture) pushes a copy of it onto the undo
stack and clears the redo stack, so `_redo` immediately afterwards is a
no-op. -/
theorem saveMaskState_clears_redo {M : Type} (s : EditorState M) (m : M)
    (hm : s.mask = some m) :
    (saveMaskState s).undoStack = m :: s.undoStack ∧
    (saveMaskState s).redoStack = [] ∧
    redo (saveMaskState s) = saveMaskState s := by
  obtain ⟨mask, us, rs⟩ := s
  simp only at hm
  subst hm
  exact ⟨rfl, rfl, rfl⟩

/-- C5 witness: the theorem applied to the concrete state with current
mask 1, empty undo stack and redo stack [9]. -/
theorem saveMaskState_clears_redo_witness :
    (saveMaskState (⟨some 1, [], [9]⟩ : EditorState Nat)).undoStack = [1] ∧
    (saveMaskState (⟨some 1, [], [9]⟩ : EditorState Nat)).redoStack = [] ∧
    redo (saveMaskState (⟨some 1, [], [9]⟩ : EditorState Nat)) =
      saveMaskState (⟨some 1, [], [9]⟩ : EditorState Nat) :=
  saveMaskState_clears_redo (⟨some 1, [], [9]⟩ : EditorState Nat) 1 rfl

/-- C8 counterexample: erase followed by paint over the identical
footprint is NOT equal to paint alone at an antialiased footprint-edge
pixel, and erase leaves residual alpha there. At a pixel with coverage
1/2 holding prior channel value 255, erase leaves 255 · (1/2) = 127.5
(residual alpha), and the subsequent paint yields
127.5 + 127.5 · (1/2) = 191.25, while paint alone yields
127.5 + 127.5 = 255. -/
theorem erase_then_paint_aa_cex :
    applyStrokeAA .erase (fun _ => (1 : ℚ) / 2) (fun _ => 255) (0, 0) ≠ 0 ∧
    applyStrokeAA .paint (fun _ => (1 : ℚ) / 2)
        (applyStrokeAA .erase (fun _ => (1 : ℚ) / 2) (fun _ => 255)) (0, 0) ≠
      applyStrokeAA .paint (fun _ => (1 : ℚ) / 2) (fun _ => 255) (0, 0) := by
  constructor <;> norm_num [applyStrokeAA]

/-- C8 (amended): at every pixel whose stroke coverage is integral —
fully inside or fully outside the footprint, i.e. everywhere except the
antialiased footprint-edge pixels — applying the stroke in erase mode
and then the identical stroke in paint mode equals applying the paint
stroke alone, and erase forces the channel value to zero at fully
covered pixels regardless of prior content. -/
theorem erase_then_paint_integral_coverage (cov : Pt → ℚ) (m : Raster) (p : Pt)
    (hc : cov p = 0 ∨ cov p = 1) :
    applyStrokeAA .paint cov (applyStrokeAA .erase cov m) p =
      applyStrokeAA .paint cov m p ∧
    (cov p = 1 → applyStrokeAA .erase cov m p = 0) := by
  rcases hc with h | h <;> constructor <;> simp [applyStrokeAA, h]

/-- C8 (amended) witness: the theorem applied at a fully covered pixel
(coverage 1) with prior channel value 7. -/
theorem erase_then_paint_integral_coverage_witness :
    applyStrokeAA .paint (fun _ => (1 : ℚ))
        (applyStrokeAA .erase (fun _ => (1 : ℚ)) (fun _ => 7)) (0, 0) =
      applyStrokeAA .paint (fun _ => (1 : ℚ)) (fun _ => 7) (0, 0) ∧
    applyStrokeAA .erase (fun _ => (1 : ℚ)) (fun _ => 7) (0, 0) = 0 :=
  ⟨(erase_then_paint_integral_coverage (fun _ => 1) (fun _ => 7) (0, 0) (Or.inr rfl)).1,
   (erase_then_paint_integral_coverage (fun _ => 1) (fun _ => 7) (0, 0) (Or.inr rfl)).2 rfl⟩

/-- C1 (code evaluated at the failing input): with a 100×100 image, a
50×50 viewport, pan (0,0) and a zoom change from 100% to 200%,
`_on_zoom_changed` leaves the pan offset at (0,0), although its own
comment says it adjusts the pan to keep the center. The image-space
point shown at the viewport center is (pan + 25) / (pct/100) on each
axis; preserving it requires (panBefore + 25) * pctAfter =
(panAfter + 25) * pctBefore. The code's pan (0,0) violates this
(25·200 ≠ 25·100), while the in-bounds pan 25 would satisfy it
(25·200 = 50·100, with 0 ≤ 25 ≤ maxPan = 150). -/
theorem zoom_change_does_not_preserve_center :
    onZoomChangedPan 100 100 50 50 0 0 100 200 = (0, 0) ∧
    ((0 : Int) + 25) * 200 ≠ ((onZoomChangedPan 100 100 50 50 0 0 100 200).1 + 25) * 100 ∧
    (0 : Int) ≤ 25 ∧ (25 : Int) ≤ max 0 (((100 : Int) * 200).tdiv 100 - 50) ∧
    ((0 : Int) + 25) * 200 = ((25 : Int) + 25) * 100 := by
  decide

/-- C2 counterexample: `_load_current_image` does NOT clear the history
stacks unconditionally. At the concrete state with image list
["a.png"], non-empty undo stack [5] and redo stack [7], when the image
fails to decode, both stacks are left unchanged (the early return on a
null pixmap skips the clears). -/
theorem load_failure_keeps_stacks_cex :
    ¬ ((loadCurrentImage (fun _ => none) (fun _ => 0)
          (⟨["a.png"], 0, some ⟨4, 4⟩, some 1, [5], [7]⟩ : SessionState Nat)).undoStack = [] ∧
       (loadCurrentImage (fun _ => none) (fun _ => 0)
          (⟨["a.png"], 0, some ⟨4, 4⟩, some 1, [5], [7]⟩ : SessionState Nat)).redoStack = []) := by
  decide

/-- C2 (amended): `_load_current_image` clears both history stacks
exactly when the current image decodes successfully; on an empty image
list or a decode failure it returns early, leaving both stacks
unchanged (while setting pixmap and mask to None). -/
theorem loadCurrentImage_clears_stacks_iff_success {M : Type}
    (decode : String → Option QSize) (maskFor : QSize → M) (s : SessionState M) :
    (∀ pm, s.imageFiles ≠ [] →
        decode (s.imageFiles[s.currentIndex]?.getD "") = some pm →
        (loadCurrentImage decode maskFor s).undoStack = [] ∧
        (loadCurrentImage decode maskFor s).redoStack = []) ∧
    (s.imageFiles = [] ∨ decode (s.imageFiles[s.currentIndex]?.getD "") = none →
        (loadCurrentImage decode maskFor s).undoStack = s.undoStack ∧
        (loadCurrentImage decode maskFor s).redoStack = s.redoStack ∧
        (loadCurrentImage decode maskFor s).originalPixmap = none ∧
        (loadCurrentImage decode maskFor s).mask = none) := by
  obtain ⟨files, idx, pm0, mk, us, rs⟩ := s
  cases files with
  | nil =>
    exact ⟨fun pm h => absurd rfl h, fun _ => ⟨rfl, rfl, rfl, rfl⟩⟩
  | cons hd tl =>
    cases hdec : decode ((hd :: tl)[idx]?.getD "") with
    | none =>
      refine ⟨fun pm _ h => absurd h (by simp), fun _ => ?_⟩
      simp [loadCurrentImage, hdec]
    | some pm =>
      refine ⟨fun pm2 _ _ => ?_, fun h => ?_⟩
      · simp [loadCurrentImage, hdec]
      · rcases h with h | h
        · exact absurd h (by simp)
        · exact absurd h (by simp)

/-- C2 (amended) witness: the theorem applied to the concrete state with
image list ["a.png"], undo stack [5], redo stack [7], and a decoder that
succeeds, showing both stacks cleared. -/
theorem loadCurrentImage_clears_stacks_witness :
    (loadCurrentImage (fun _ => some ⟨4, 4⟩) (fun _ => 0)
        (⟨["a.png"], 0, none, some 1, [5], [7]⟩ : SessionState Nat)).undoStack = [] ∧
    (loadCurrentImage (fun _ => some ⟨4, 4⟩) (fun _ => 0)
        (⟨["a.png"], 0, none, some 1, [5], [7]⟩ : SessionState Nat)).redoStack = [] :=
  (loadCurrentImage_clears_stacks_iff_success (fun _ => some ⟨4, 4⟩) (fun _ => 0)
      (⟨["a.png"], 0, none, some 1, [5], [7]⟩ : SessionState Nat)).1
    ⟨4, 4⟩ (by decide) rfl

/-- C7 counterexample: a failed mask save DOES leave a newly copied
original behind. Starting from a filesystem where neither destination
file exists, with a valid mask and initialized workspace, a successful
copy followed by a failed mask save raises IOError with the original
copied and the mask absent. -/
theorem failed_mask_save_leaves_copied_original_cex :
    (saveMaskWithOriginal true true true false ⟨false, false⟩).1 = some .ioErrorSave ∧
    (saveMaskWithOriginal true true true false ⟨false, false⟩).2.origExists = true ∧
    (saveMaskWithOriginal true true true false ⟨false, false⟩).2.maskExists = false := by
  decide

/-- C7 (amended): both save paths are atomic at file granularity (no
file is left half-written) but not transactional. Create mode
(`OutputManager.save_mask_with_original`, copy-then-save): on success
both files exist; on any failure the mask file is not newly written; a
failed mask save leaves the original present exactly when it already
existed or the copy step of this operation succeeded (the copy is not
rolled back). Open mode (`_save_mask`'s direct branch, save-then-copy):
on success both files exist; a failed mask save leaves the filesystem
unchanged; a failed original copy aborts the operation with the newly
saved mask file left behind and the original unchanged. -/
theorem saveMask_file_granularity_both_paths
    (maskValid initialized copyOk maskSaveOk : Bool) (fs : FSState) :
    ((saveMaskWithOriginal maskValid initialized copyOk maskSaveOk fs).1 = none →
      (saveMaskWithOriginal maskValid initialized copyOk maskSaveOk fs).2.origExists = true ∧
      (saveMaskWithOriginal maskValid initialized copyOk maskSaveOk fs).2.maskExists = true) ∧
    ((saveMaskWithOriginal maskValid initialized copyOk maskSaveOk fs).1 ≠ none →
      (saveMaskWithOriginal maskValid initialized copyOk maskSaveOk fs).2.maskExists =
        fs.maskExists) ∧
    ((saveMaskWithOriginal maskValid initialized copyOk maskSaveOk fs).1 =
        some .ioErrorSave →
      (saveMaskWithOriginal maskValid initialized copyOk maskSaveOk fs).2.origExists =
        (fs.origExists || copyOk)) ∧
    ((saveMaskOpenWorkspace maskValid initialized maskSaveOk copyOk fs).1 = none →
      (saveMaskOpenWorkspace maskValid initialized maskSaveOk copyOk fs).2.origExists = true ∧
      (saveMaskOpenWorkspace maskValid initialized maskSaveOk copyOk fs).2.maskExists = true) ∧
    ((saveMaskOpenWorkspace maskValid initialized maskSaveOk copyOk fs).1 =
        some .ioErrorSave →
      (saveMaskOpenWorkspace maskValid initialized maskSaveOk copyOk fs).2 = fs) ∧
    ((saveMaskOpenWorkspace maskValid initialized maskSaveOk copyOk fs).1 =
        some .ioErrorCopy →
      (saveMaskOpenWorkspace maskValid initialized maskSaveOk copyOk fs).2.maskExists = true ∧
      (saveMaskOpenWorkspace maskValid initialized maskSaveOk copyOk fs).2.origExists =
        fs.origExists) := by
  obtain ⟨og, mk⟩ := fs
  cases maskValid <;> cases initialized <;> cases copyOk <;> cases maskSaveOk <;>
    cases og <;> cases mk <;> decide

/-- C7 (amended) witness: the theorem applied at the two concrete
partial-state scenarios — create mode with a successful copy and a
failed mask save, and open mode with a successful mask save and a
failed copy — both from an empty filesystem. -/
theorem saveMask_file_granularity_both_paths_witness :
    (saveMaskWithOriginal true true true false ⟨false, false⟩).2.maskExists = false ∧
    (saveMaskWithOriginal true true true false ⟨false, false⟩).2.origExists = (false || true) ∧
    (saveMaskOpenWorkspace true true true false ⟨false, false⟩).2.maskExists = true ∧
    (saveMaskOpenWorkspace true true true false ⟨false, false⟩).2.origExists = false :=
  ⟨(saveMask_file_granularity_both_paths true true true false ⟨false, false⟩).2.1 (by decide),
   (saveMask_file_granularity_both_paths true true true false ⟨false, false⟩).2.2.1 (by decide),
   ((saveMask_file_granularity_both_paths true true false true ⟨false, false⟩).2.2.2.2.2
     (by decide)).1,
   ((saveMask_file_granularity_both_paths true true false true ⟨false, false⟩).2.2.2.2.2
     (by decide)).2⟩

/-- C6: `_load_existing_mask` always yields a mask of exactly the
image's dimensions; when no mask file could be loaded it falls back to a
fresh zero-filled mask of the image's dimensions; when a mask of
mismatched size was loaded, the result is its non-aspect-preserving
exact-fit rescale. -/
theorem loadExistingMask_size_and_fallback (loaded : Option MaskImg) (size : QSize) :
    (loadExistingMask loaded size).width = size.w ∧
    (loadExistingMask loaded size).height = size.h ∧
    (loaded = none → ∀ x y, (loadExistingMask loaded size).pix x y = 0) ∧
    (∀ lm, loaded = some lm → ¬(lm.width = size.w ∧ lm.height = size.h) →
      loadExistingMask loaded size = scaledIgnoreAspect lm size) := by
  cases loaded with
  | none =>
    exact ⟨rfl, rfl, fun _ _ _ => rfl, fun lm h => absurd h (by simp)⟩
  | some lm =>
    by_cases h : lm.width = size.w ∧ lm.height = size.h
    · refine ⟨?_, ?_, fun hn => absurd hn (by simp), fun lm2 heq hne => ?_⟩
      · simp [loadExistingMask, h, h.1]
      · simp [loadExistingMask, h, h.2]
      · cases heq
        exact absurd h hne
    · refine ⟨?_, ?_, fun hn => absurd hn (by simp), fun lm2 heq hne => ?_⟩
      · simp [loadExistingMask, h, scaledIgnoreAspect]
      · simp [loadExistingMask, h, scaledIgnoreAspect]
      · cases heq
        simp [loadExistingMask, h]

/-- C6 witness: the theorem applied to a loaded 2×3 mask and a 4×4
image: the result is exactly 4×4 and equals the exact-fit rescale. -/
theorem loadExistingMask_size_and_fallback_witness :
    (loadExistingMask (some ⟨2, 3, fun _ _ => 5⟩) ⟨4, 4⟩).width = 4 ∧
    (loadExistingMask (some ⟨2, 3, fun _ _ => 5⟩) ⟨4, 4⟩).height = 4 ∧
    loadExistingMask (some ⟨2, 3, fun _ _ => 5⟩) ⟨4, 4⟩ =
      scaledIgnoreAspect ⟨2, 3, fun _ _ => 5⟩ ⟨4, 4⟩ :=
  ⟨(loadExistingMask_size_and_fallback (some ⟨2, 3, fun _ _ => 5⟩) ⟨4, 4⟩).1,
   (loadExistingMask_size_and_fallback (some ⟨2, 3, fun _ _ => 5⟩) ⟨4, 4⟩).2.1,
   (loadExistingMask_size_and_fallback (some ⟨2, 3, fun _ _ => 5⟩) ⟨4, 4⟩).2.2.2
     ⟨2, 3, fun _ _ => 5⟩ rfl (by decide)⟩

/-- Lookup distributes over appended association lists: the first list
shadows the second. -/
theorem lookup_append {α β : Type} [BEq α] (l₁ l₂ : List (α × β)) (k : α) :
    (l₁ ++ l₂).lookup k = ((l₁.lookup k).or (l₂.lookup k)) := by
  induction l₁ with
  | nil => simp [List.lookup]
  | cons hd tl ih =>
    cases h : k == hd.1 with
    | true => simp [List.lookup, h]
    | false => simp [List.lookup, h, ih]

/-- C10: for every file content in the stated domain (absent,
unreadable, malformed JSON, or a JSON object), `WorkspaceConfig.load`
returns successfully (never raises), and the returned dictionary maps
every key of `DEFAULT_CONFIG` to the file's value when the file provides
that key and to the default value otherwise. -/
theorem configLoad_total_with_defaults (fc : ConfigFile) :
    configLoad fc = .ok (fileFields fc ++ DEFAULT_CONFIG) ∧
    (∀ k v, DEFAULT_CONFIG.lookup k = some v →
      (fileFields fc ++ DEFAULT_CONFIG).lookup k =
        some (((fileFields fc).lookup k).getD v)) := by
  refine ⟨by cases fc <;> rfl, fun k v hv => ?_⟩
  rw [lookup_append]
  cases hf : (fileFields fc).lookup k with
  | none => simp [hf, hv]
  | some w => simp [hf]

/-- C10 witness: the theorem applied to a config file providing only
`workspace_root`: the loaded dictionary takes that value from the file
and keeps the default `naming_pattern`. -/
theorem configLoad_total_with_defaults_witness :
    configLoad (.object [("workspace_root", .jstr "/x")]) =
      .ok (fileFields (.object [("workspace_root", .jstr "/x")]) ++ DEFAULT_CONFIG) ∧
    (fileFields (.object [("workspace_root", .jstr "/x")]) ++ DEFAULT_CONFIG).lookup
        "workspace_root" = some (.jstr "/x") ∧
    (fileFields (.object [("workspace_root", .jstr "/x")]) ++ DEFAULT_CONFIG).lookup
        "naming_pattern" = some (.jstr "\x7bbasename\x7d_mask.png") := by
  have h := configLoad_total_with_defaults (.object [("workspace_root", .jstr "/x")])
  refine ⟨h.1, ?_, ?_⟩
  · have h2 := h.2 "workspace_root" (.jstr "./workspace") (by rfl)
    simpa using h2
  · have h2 := h.2 "naming_pattern" (.jstr "\x7bbasename\x7d_mask.png") (by rfl)
    simpa using h2

/-- C3: `_map_label_pos_to_image` returns `none` (a no-op) exactly when
the local position (event position minus the letterbox centering offset)
falls outside the rendered pixmap, or the coordinates obtained by adding
the pan offset and dividing by the zoom factor with truncation fall
outside [0,W)×[0,H) of the image; and whenever it returns a point, that
point is exactly the truncated quotient. -/
theorem mapLabelPosToImage_characterization
    (labelW labelH pixW pixH imgW imgH zoomPct panx pany lx ly : Int) :
    (mapLabelPosToImage labelW labelH pixW pixH imgW imgH zoomPct panx pany lx ly = none ↔
      (lx - (labelW - pixW).fdiv 2 < 0 ∨ ly - (labelH - pixH).fdiv 2 < 0 ∨
       pixW ≤ lx - (labelW - pixW).fdiv 2 ∨ pixH ≤ ly - (labelH - pixH).fdiv 2 ∨
       ((lx - (labelW - pixW).fdiv 2 + panx) * 100).tdiv zoomPct < 0 ∨
       ((ly - (labelH - pixH).fdiv 2 + pany) * 100).tdiv zoomPct < 0 ∨
       imgW ≤ ((lx - (labelW - pixW).fdiv 2 + panx) * 100).tdiv zoomPct ∨
       imgH ≤ ((ly - (labelH - pixH).fdiv 2 + pany) * 100).tdiv zoomPct)) ∧
    (∀ ix iy,
      mapLabelPosToImage labelW labelH pixW pixH imgW imgH zoomPct panx pany lx ly =
        some (ix, iy) →
      ix = ((lx - (labelW - pixW).fdiv 2 + panx) * 100).tdiv zoomPct ∧
      iy = ((ly - (labelH - pixH).fdiv 2 + pany) * 100).tdiv zoomPct) := by
  unfold mapLabelPosToImage
  dsimp only
  split_ifs with h1 h2
  · constructor
    · constructor
      · intro _
        rcases h1 with h | h | h | h
        · exact Or.inl h
        · exact Or.inr (Or.inl h)
        · exact Or.inr (Or.inr (Or.inl h))
        · exact Or.inr (Or.inr (Or.inr (Or.inl h)))
      · intro _
        rfl
    · intro ix iy h
      exact absurd h (by simp)
  · constructor
    · constructor
      · intro _
        rcases h2 with h | h | h | h
        · exact Or.inr (Or.inr (Or.inr (Or.inr (Or.inl h))))
        · exact Or.inr (Or.inr (Or.inr (Or.inr (Or.inr (Or.inl h)))))
        · exact Or.inr (Or.inr (Or.inr (Or.inr (Or.inr (Or.inr (Or.inl h))))))
        · exact Or.inr (Or.inr (Or.inr (Or.inr (Or.inr (Or.inr (Or.inr h))))))
      · intro _
        rfl
    · intro ix iy h
      exact absurd h (by simp)
  · constructor
    · constructor
      · intro h
        exact absurd h (by simp)
      · intro h
        rcases h with h | h | h | h | h | h | h | h
        · exact absurd (Or.inl h) h1
        · exact absurd (Or.inr (Or.inl h)) h1
        · exact absurd (Or.inr (Or.inr (Or.inl h))) h1
        · exact absurd (Or.inr (Or.inr (Or.inr h))) h1
        · exact absurd (Or.inl h) h2
        · exact absurd (Or.inr (Or.inl h)) h2
        · exact absurd (Or.inr (Or.inr (Or.inl h))) h2
        · exact absurd (Or.inr (Or.inr (Or.inr h))) h2
    · intro ix iy h
      have h' := Option.some.inj h
      have hx := congrArg Prod.fst h'
      have hy := congrArg Prod.snd h'
      exact ⟨hx.symm, hy.symm⟩

/-- C3 witness: the theorem applied at the concrete configuration with a
200×200 viewport showing a 100×100 pixmap of a 100×100 image at zoom
100% and pan (0,0), clicking at label position (60, 70): the mapping
returns image pixel (10, 20). -/
theorem mapLabelPosToImage_characterization_witness :
    mapLabelPosToImage 200 200 100 100 100 100 100 0 0 60 70 = some (10, 20) ∧
    ((10 : Int) = ((60 - ((200 : Int) - 100).fdiv 2 + 0) * 100).tdiv 100 ∧
     (20 : Int) = ((70 - ((200 : Int) - 100).fdiv 2 + 0) * 100).tdiv 100) :=
  ⟨by decide,
   (mapLabelPosToImage_characterization 200 200 100 100 100 100 100 0 0 60 70).2
     10 20 (by decide)⟩

end SegTool
